import Mathlib

/-!
Shallow embedding of `src/js/main.js` of the `shopify-costom-code` storefront
script, together with theorems settling the specification claims about it.

Each JavaScript event handler is embedded as a pure state-transition function
on an explicit record of the DOM state it reads and writes.  Fallible code
(null dereferences that would raise a `TypeError` / `ReferenceError` at
runtime) is embedded as an `Except`-valued function.  Real-valued scroll
arithmetic is embedded over `ℚ` (JS numbers on the inputs considered here are
exact).
-/

/-! ## Mobile navigation (main.js lines 64-102 and 384-393)

The state a navigation handler can read or write: the toggle's
`aria-expanded` attribute (a string, as `getAttribute` returns), whether the
menu's class list contains `active`, the `document.body.style.overflow`
value, and whether `navToggle.focus()` has been called.  This model is for
documents where both `.nav-toggle` and `.nav-menu` exist (the guard on line
68 holds); absence of the toggle is modelled separately below. -/
structure NavState where
  ariaExpanded : String
  menuActive : Bool
  bodyOverflow : String
  toggleFocused : Bool
deriving Repr, DecidableEq

/-- `navToggle` click handler (lines 72-77): reads `aria-expanded`, writes
its negation, toggles the `active` class, and sets body overflow from the
resulting class. -/
def toggleClick (st : NavState) : NavState :=
  let isExpanded := st.ariaExpanded = "true"
  let menuActive := !st.menuActive
  { st with
    ariaExpanded := if isExpanded then "false" else "true"
    menuActive := menuActive
    bodyOverflow := if menuActive then "hidden" else "" }

/-- Nav-link click handler (lines 82-88): unconditionally closes the menu. -/
def linkClick (st : NavState) : NavState :=
  { st with menuActive := false, ariaExpanded := "false", bodyOverflow := "" }

/-- Document click handler (lines 93-101): closes the menu when it is active
and the event target lies neither in the menu nor in the toggle. -/
def outsideClick (st : NavState) (targetInMenu targetInToggle : Bool) : NavState :=
  if st.menuActive && !targetInMenu && !targetInToggle then
    { st with menuActive := false, ariaExpanded := "false", bodyOverflow := "" }
  else st

/-- Escape keydown handler (lines 384-393), in a document where both nav
elements exist: when the menu is active, closes it and focuses the toggle. -/
def escapeKeydown (st : NavState) : NavState :=
  if st.menuActive then
    { st with menuActive := false, ariaExpanded := "false", bodyOverflow := ""
              toggleFocused := true }
  else st

/-- The four menu operations a user event can cause. -/
inductive NavOp where
  | toggle : NavOp
  | link : NavOp
  | outside (targetInMenu targetInToggle : Bool) : NavOp
  | escape : NavOp
deriving Repr, DecidableEq

def navApply (st : NavState) : NavOp → NavState
  | NavOp.toggle => toggleClick st
  | NavOp.link => linkClick st
  | NavOp.outside m t => outsideClick st m t
  | NavOp.escape => escapeKeydown st

def navRun (st : NavState) (ops : List NavOp) : NavState :=
  ops.foldl navApply st

/-- The menu invariant: the `aria-expanded` attribute is the string `"true"`
exactly when the `active` class is present. -/
def navConsistent (st : NavState) : Prop :=
  (st.ariaExpanded = "true") ↔ st.menuActive = true

instance (st : NavState) : Decidable (navConsistent st) := by
  unfold navConsistent; infer_instance

lemma navApply_consistent (st : NavState) (op : NavOp)
    (h : navConsistent st) : navConsistent (navApply st op) := by
  cases op with
  | toggle =>
      unfold navConsistent at *
      by_cases ha : st.ariaExpanded = "true"
      · have hm : st.menuActive = true := h.1 ha
        simp [navApply, toggleClick, ha, hm]
      · have hm : st.menuActive = false := by
          rcases Bool.eq_false_or_eq_true st.menuActive with ht | hf
          · exact absurd (h.2 ht) ha
          · exact hf
        simp [navApply, toggleClick, ha, hm]
  | link =>
      unfold navConsistent at *
      simp [navApply, linkClick]
  | outside m t =>
      unfold navConsistent at *
      simp only [navApply, outsideClick]
      by_cases hc : (st.menuActive && !m && !t) = true
      · simp [hc]
      · simp only [Bool.not_eq_true] at hc
        simp [hc, h]
  | escape =>
      unfold navConsistent at *
      simp only [navApply, escapeKeydown]
      by_cases hc : st.menuActive = true
      · simp [hc]
      · simp [hc, h]

/-! ## Escape handler over a document with a possibly absent toggle
(main.js lines 64-68 and 384-393)

The Escape keydown handler is installed unconditionally on `document`; it
guards on `navMenu && navMenu.classList.contains('active')` but then calls
`navToggle.setAttribute(...)` without checking `navToggle`.  The click
handlers of lines 72-101, by contrast, are installed only under the guard
`if (navToggle && navMenu)` of line 68. -/
structure NavDoc where
  /-- `document.querySelector('.nav-toggle')`: `none` when absent, otherwise
  the toggle's `aria-expanded` attribute value. -/
  navToggle : Option String
  /-- `document.querySelector('.nav-menu')`: `none` when absent, otherwise
  whether its class list contains `active`. -/
  navMenu : Option Bool
  bodyOverflow : String
  toggleFocused : Bool
deriving Repr, DecidableEq

/-- Escape keydown handler (lines 384-393) over `NavDoc`.  The class removal
on line 387 runs before the `navToggle.setAttribute` of line 388, so when
the toggle is absent the handler throws a `TypeError` after having removed
the class; the error value records the state at the throw. -/
def escapeKeydownDoc (doc : NavDoc) (key : String) : Except NavDoc NavDoc :=
  if key = "Escape" then
    match doc.navMenu with
    | some true =>
        let doc1 : NavDoc := { doc with navMenu := some false }
        match doc1.navToggle with
        | some _ =>
            Except.ok { doc1 with navToggle := some "false", bodyOverflow := ""
                                  toggleFocused := true }
        | none => Except.error doc1
    | _ => Except.ok doc
  else Except.ok doc

/-- Line 68 guard: the click-based open/close handlers are attached exactly
when both `.nav-toggle` and `.nav-menu` exist. -/
def clickHandlersInstalled (doc : NavDoc) : Bool :=
  doc.navToggle.isSome && doc.navMenu.isSome

/-! ## Smooth scrolling (main.js lines 35-58) -/

/-- The easing function of lines 50-55, over `ℚ`:
`t /= d / 2; if (t < 1) return c / 2 * t * t + b; t--; return -c / 2 * (t * (t - 2) - 1) + b`. -/
def easeQ (t b c d : ℚ) : ℚ :=
  let t1 := t / (d / 2)
  if t1 < 1 then c / 2 * t1 * t1 + b
  else
    let t2 := t1 - 1;
    -c / 2 * (t2 * (t2 - 2) - 1) + b

/-- The layout values `smoothScrollTo` reads (lines 36-37). -/
structure ScrollCtx where
  /-- `target.getBoundingClientRect().top` -/
  rectTop : ℚ
  /-- `window.pageYOffset` at invocation time -/
  pageYOffset : ℚ
deriving Repr, DecidableEq

/-- Line 36: the target's document offset. -/
def targetPosition (ctx : ScrollCtx) : ℚ := ctx.rectTop + ctx.pageYOffset

/-- Line 37. -/
def startPosition (ctx : ScrollCtx) : ℚ := ctx.pageYOffset

/-- Line 38: `targetPosition - startPosition - 60` (fixed header height). -/
def scrollDistance (ctx : ScrollCtx) : ℚ :=
  targetPosition ctx - startPosition ctx - 60

/-- Line 39. -/
def scrollDuration : ℚ := 1000

/-- The value `window.scrollTo` writes on the frame whose elapsed time since
the first frame is `e` milliseconds (line 45). -/
def frameWrite (ctx : ScrollCtx) (e : ℕ) : ℚ :=
  easeQ (e : ℚ) (startPosition ctx) (scrollDistance ctx) scrollDuration

/-- The elapsed time of the LAST `scrollTo` write of the animation loop of
lines 42-48: starting from frame index `n`, keep consuming frames while
`timeElapsed < duration`; the first frame at elapsed `≥ 1000` is written and
the recursion stops (no further `requestAnimationFrame`).  `frames k` is the
timestamp passed to the `k`-th animation callback; `start = frames 0`
(line 43).  `fuel` bounds the search so the definition is executable;
`none` means the loop was still awaiting more frames. -/
def lastElapsed (frames : ℕ → ℕ) : ℕ → ℕ → Option ℕ
  | _, 0 => none
  | n, fuel + 1 =>
      if frames n - frames 0 < 1000 then lastElapsed frames (n + 1) fuel
      else some (frames n - frames 0)

lemma lastElapsed_some_of_ge (frames : ℕ → ℕ) :
    ∀ fuel n, 1000 ≤ frames (n + fuel) - frames 0 →
      ∃ e, lastElapsed frames n (fuel + 1) = some e := by
  intro fuel
  induction fuel with
  | zero =>
      intro n h
      rw [Nat.add_zero] at h
      refine ⟨frames n - frames 0, ?_⟩
      simp only [lastElapsed]
      rw [if_neg (by omega)]
  | succ k ih =>
      intro n h
      by_cases hn : frames n - frames 0 < 1000
      · have h' : 1000 ≤ frames (n + 1 + k) - frames 0 := by
          have heq : n + 1 + k = n + (k + 1) := by omega
          rw [heq]
          exact h
        obtain ⟨e, he⟩ := ih (n + 1) h'
        refine ⟨e, ?_⟩
        simp only [lastElapsed]
        rw [if_pos hn]
        exact he
      · refine ⟨frames n - frames 0, ?_⟩
        simp only [lastElapsed]
        rw [if_neg hn]

lemma lastElapsed_ge (frames : ℕ → ℕ) :
    ∀ fuel n e, lastElapsed frames n fuel = some e → 1000 ≤ e := by
  intro fuel
  induction fuel with
  | zero => intro n e h; simp [lastElapsed] at h
  | succ k ih =>
      intro n e h
      by_cases hn : frames n - frames 0 < 1000
      · refine ih (n + 1) e ?_
        simp only [lastElapsed] at h
        rwa [if_pos hn] at h
      · have he : frames n - frames 0 = e := by
          simp only [lastElapsed] at h
          rw [if_neg hn] at h
          exact Option.some.inj h
        omega

lemma strictMono_ge_add (frames : ℕ → ℕ) (hm : StrictMono frames) :
    ∀ n, frames 0 + n ≤ frames n := by
  intro n
  induction n with
  | zero => omega
  | succ k ih =>
      have : frames k < frames (k + 1) := hm (Nat.lt_succ_self k)
      omega

lemma easeQ_first_half (b c d t : ℚ) (hd : 0 < d) (htd : t ≤ d / 2) :
    easeQ t b c d = c / 2 * (t / (d / 2)) * (t / (d / 2)) + b := by
  simp only [easeQ]
  by_cases h : t / (d / 2) < 1
  · rw [if_pos h]
  · have h2 : (0 : ℚ) < d / 2 := by positivity
    have h1 : t / (d / 2) ≤ 1 := by
      rw [div_le_one h2]
      linarith
    have heq : t / (d / 2) = 1 := le_antisymm h1 (not_lt.mp h)
    rw [if_neg h, heq]
    ring

lemma easeQ_second_half (b c d t : ℚ) (hd : 0 < d) (htd : d / 2 ≤ t) :
    easeQ t b c d =
      -c / 2 * ((t / (d / 2) - 1) * ((t / (d / 2) - 1) - 2) - 1) + b := by
  simp only [easeQ]
  have h2 : (0 : ℚ) < d / 2 := by positivity
  have h1 : (1 : ℚ) ≤ t / (d / 2) := (one_le_div h2).mpr htd
  rw [if_neg (not_lt.mpr h1)]

/-! ## Anchor-link click handler and optional runtime capabilities
(main.js lines 108-128, 285-307, 337-352)

Line 117 calls `e.preventDefault()` and only then line 118 calls
`smoothScrollTo`, whose line 57 calls `requestAnimationFrame` with no
feature check: in an environment without animation-frame scheduling this
raises a `ReferenceError` after the default navigation has already been
prevented. -/
inductive AnchorOutcome where
  /-- handler returned before `preventDefault`; the browser's native anchor
  behaviour proceeds -/
  | nativeBehaviour : AnchorOutcome
  /-- `preventDefault` ran and `requestAnimationFrame` scheduled the
  animation -/
  | smoothStarted : AnchorOutcome
  /-- `preventDefault` ran, then calling the missing
  `requestAnimationFrame` threw -/
  | thrown : AnchorOutcome
deriving Repr, DecidableEq

structure AnchorResult where
  outcome : AnchorOutcome
  defaultPrevented : Bool
deriving Repr, DecidableEq

/-- Anchor click handler (lines 109-127) for a link with the given `href`,
in a document where the target of the href does (not) exist and a runtime
with (without) `requestAnimationFrame`. -/
def anchorClick (href : String) (targetExists : Bool) (hasRAF : Bool) :
    AnchorResult :=
  if href = "#" ∨ href = "#cart" then
    { outcome := AnchorOutcome.nativeBehaviour, defaultPrevented := false }
  else if targetExists then
    if hasRAF then { outcome := AnchorOutcome.smoothStarted, defaultPrevented := true }
    else { outcome := AnchorOutcome.thrown, defaultPrevented := true }
  else { outcome := AnchorOutcome.nativeBehaviour, defaultPrevented := false }

/-- Reveal-observer setup (lines 285-307): `new IntersectionObserver(...)`
on line 290 runs with NO feature check, so in a runtime without
`IntersectionObserver` the whole setup throws a `ReferenceError`; `ok`
carries whether the animated elements were registered. -/
def revealSetupRuns (hasIntersectionObserver : Bool) : Except Unit Bool :=
  if hasIntersectionObserver then Except.ok true else Except.error ()

/-- Lazy-background setup (lines 337-352): guarded by
`if ('IntersectionObserver' in window)`, so it never throws; returns
whether the lazy observer was attached. -/
def lazySetupRuns (hasIntersectionObserver : Bool) : Bool :=
  if hasIntersectionObserver then true else false

/-! ## Header scroll behaviour (main.js lines 134-154) -/

/-- Debounced scroll handler (lines 140-152).  Both branches assign
`header.style.transform`; when no `.header` element exists, `header` is
`null` (line 134) and the access throws a `TypeError` — there is no guard.
`ok` carries the transform written and the new `lastScrollY`. -/
def handleScrollDoc (hasHeader : Bool) (lastScrollY currentScrollY : ℚ) :
    Except Unit (String × ℚ) :=
  if hasHeader then
    if currentScrollY > lastScrollY ∧ currentScrollY > 100 then
      Except.ok ("translateY(-100%)", currentScrollY)
    else
      Except.ok ("translateY(0)", currentScrollY)
  else Except.error ()

/-! ## Product card setup (main.js lines 160-214) -/

structure ProductCard where
  /-- text content of the `.product-name` descendant, `none` when the
  descendant is absent -/
  productName : Option String
  hasAddToCart : Bool
  hasQuickView : Bool
deriving Repr, DecidableEq

structure CardHandlers where
  productName : String
  addToCartAttached : Bool
  quickViewAttached : Bool
  keydownAttached : Bool
deriving Repr, DecidableEq

/-- Per-card setup (lines 162-213).  Line 165 reads
`card.querySelector('.product-name').textContent` with no null check, so a
card without a `.product-name` descendant makes setup throw a `TypeError`
before any handler is attached.  The two button handlers are attached under
their own existence guards (lines 170, 196); the keydown handler always. -/
def setupProductCard (card : ProductCard) : Except Unit CardHandlers :=
  match card.productName with
  | none => Except.error ()
  | some nm =>
      Except.ok { productName := nm
                  addToCartAttached := card.hasAddToCart
                  quickViewAttached := card.hasQuickView
                  keydownAttached := true }

/-- `productCards.forEach` (line 162): an exception thrown for one card
aborts the whole loop (and the rest of the script's initialization). -/
def setupProductCards : List ProductCard → Except Unit (List CardHandlers)
  | [] => Except.ok []
  | c :: rest =>
      match setupProductCard c with
      | Except.error e => Except.error e
      | Except.ok h =>
          match setupProductCards rest with
          | Except.error e => Except.error e
          | Except.ok hs => Except.ok (h :: hs)

/-- Line 68 / line 234 existence guards: these controllers are attached
only when their element exists, and attachment itself never throws. -/
def navSetupAttached (hasToggle hasMenu : Bool) : Bool := hasToggle && hasMenu

def newsletterSetupAttached (hasForm : Bool) : Bool := hasForm

/-! ## Newsletter form (main.js lines 232-276) -/

/-- Character class `[^\s@]` of the regex on line 274. -/
def isEmailChar (c : Char) : Bool := !c.isWhitespace && !(c = '@')

/-- Split a character list at every `'@'` (the separator is dropped). -/
def splitAtSign : List Char → List (List Char)
  | [] => [[]]
  | c :: rest =>
      let r := splitAtSign rest
      if c = '@' then [] :: r
      else
        match r with
        | [] => [[c]]
        | h :: t => (c :: h) :: t

/-- The regex test of lines 273-275: the string matches
`^[^\s@]+@[^\s@]+\.[^\s@]+$`, i.e. it splits at a unique `'@'` into a
nonempty class-respecting local part and a domain part that itself contains
a `'.'` strictly inside it (both dot-neighbours nonempty).  Because the
character classes admit `'.'`, an interior dot in the domain is exactly
what the `[^\s@]+\.[^\s@]+` suffix requires. -/
def isValidEmail (email : String) : Bool :=
  match splitAtSign email.toList with
  | [localPart, domainPart] =>
      !localPart.isEmpty &&
      localPart.all isEmailChar &&
      domainPart.all isEmailChar &&
      (domainPart.drop 1).dropLast.contains '.'
  | _ => false

/-- The DOM state the newsletter submit handler reads and writes. -/
structure FormState where
  /-- `emailInput.value` -/
  inputValue : String
  /-- `submitBtn.textContent` -/
  btnText : String
  /-- `submitBtn.style.backgroundColor` -/
  btnColor : String
  /-- screen-reader announcements so far, in order -/
  announcements : List String
  /-- whether `emailInput.focus()` has been called -/
  inputFocused : Bool
  /-- pending `setTimeout` revert: delay in ms and the saved original button
  text (lines 258-261) -/
  pendingRevert : Option (ℕ × String)
  /-- whether `e.preventDefault()` has been called -/
  defaultPrevented : Bool
deriving Repr, DecidableEq

/-- Submit handler (lines 235-265). -/
def newsletterSubmit (st : FormState) : FormState :=
  let st := { st with defaultPrevented := true }
  let email := st.inputValue
  if email = "" || !isValidEmail email then
    { st with
      announcements := st.announcements ++ ["Please enter a valid email address"]
      inputFocused := true }
  else
    let originalBtnText := st.btnText
    { st with
      btnText := "Subscribed!"
      btnColor := "#4CAF50"
      inputValue := ""
      announcements := st.announcements ++ ["Successfully subscribed to newsletter"]
      pendingRevert := some (3000, originalBtnText) }

/-- The `setTimeout` callback of lines 258-261 firing after its delay. -/
def fireFormRevert (st : FormState) : FormState :=
  match st.pendingRevert with
  | none => st
  | some (_, originalBtnText) =>
      { st with btnText := originalBtnText, btnColor := "", pendingRevert := none }

/-! ## Cart counter and add-to-cart button (main.js lines 170-191, 219-226) -/

structure CartState where
  /-- the module-level `cartCount` (line 219) -/
  cartCount : ℕ
  /-- whether `document.querySelector('a[href="#cart"]')` finds a link -/
  hasCartLink : Bool
  /-- the cart link's text content -/
  cartLinkText : String
  /-- the clicked button's text content -/
  btnText : String
  /-- the clicked button's background colour -/
  btnColor : String
  announcements : List String
  /-- pending 2000 ms revert timers with their saved original text -/
  pendingReverts : List (ℕ × String)
deriving Repr, DecidableEq

/-- `updateCartCount` (lines 220-226). -/
def updateCartCount (st : CartState) : CartState :=
  let st := { st with cartCount := st.cartCount + 1 }
  if st.hasCartLink then
    let n := st.cartCount
    { st with cartLinkText := s!"Cart ({n})" }
  else st

/-- Result of dispatching a click on an add-to-cart button: the new state
and whether `e.stopPropagation()` was called (so no ancestor click handler
runs). -/
structure CartClickResult where
  state : CartState
  propagationStopped : Bool
deriving Repr, DecidableEq

/-- Add-to-cart click handler (lines 171-190) for the product with the given
name. -/
def addToCartClick (productName : String) (st : CartState) : CartClickResult :=
  let originalText := st.btnText
  let st := { st with btnText := "Added!", btnColor := "#4CAF50" }
  let st := { st with announcements := st.announcements ++ [s!"{productName} added to cart"] }
  let st := updateCartCount st
  let st := { st with pendingReverts := st.pendingReverts ++ [(2000, originalText)] }
  { state := st, propagationStopped := true }

/-- A sequence of add-to-cart clicks across any products. -/
def addToCartClicks (names : List String) (st : CartState) : CartState :=
  names.foldl (fun s nm => (addToCartClick nm s).state) st

/-- The `setTimeout` callback of lines 186-189 firing: restores the saved
button text and clears the colour; it does not touch the counter. -/
def fireCartRevert (originalText : String) (st : CartState) : CartState :=
  { st with btnText := originalText, btnColor := "" }

/-! ## Scroll-reveal and lazy-background observers
(main.js lines 285-307 and 337-352)

Elements are identified by natural numbers.  An `ObsEntry` is an
`IntersectionObserverEntry` restricted to the two fields the callbacks
read.  The browser delivers an entry only for a target the observer is
still observing; `revealDeliver` / `lazyDeliver` model that browser-side
guarantee, while `revealHandleEntry` / `lazyHandleEntry` are the callback
bodies from the source. -/
structure ObsEntry where
  target : ℕ
  isIntersecting : Bool
deriving Repr, DecidableEq

structure RevealState where
  /-- targets the observer is currently observing -/
  observing : List ℕ
  /-- each element's `style.opacity` -/
  opacity : ℕ → String
  /-- each element's `style.transform` -/
  transformStyle : ℕ → String
  /-- how many times the visible styling has been applied to each element -/
  applyCount : ℕ → ℕ

/-- Reveal callback body for one entry (lines 291-297): on an intersecting
entry, set the visible styling and `observer.unobserve(entry.target)`. -/
def revealHandleEntry (st : RevealState) (e : ObsEntry) : RevealState :=
  if e.isIntersecting then
    { st with
      opacity := fun x => if x = e.target then "1" else st.opacity x
      transformStyle := fun x => if x = e.target then "translateY(0)" else st.transformStyle x
      applyCount := fun x => if x = e.target then st.applyCount x + 1 else st.applyCount x
      observing := st.observing.erase e.target }
  else st

/-- Delivery of one entry: the browser only delivers entries for targets
still observed. -/
def revealDeliver (st : RevealState) (e : ObsEntry) : RevealState :=
  if e.target ∈ st.observing then revealHandleEntry st e else st

def revealRun (st : RevealState) (entries : List ObsEntry) : RevealState :=
  entries.foldl revealDeliver st

/-- Setup of lines 301-307: each animated element gets the hidden styling
and is observed.  `observe` on an already-observed target is a no-op, so
the observed targets form a set; `dedup` mirrors that. -/
def revealInit (elems : List ℕ) : RevealState :=
  { observing := elems.dedup
    opacity := fun _ => "0"
    transformStyle := fun _ => "translateY(20px)"
    applyCount := fun _ => 0 }

structure LazyState where
  observing : List ℕ
  /-- how many times `classList.add('loaded')` has run for each element -/
  loadedCount : ℕ → ℕ

/-- Lazy-background callback body for one entry (lines 341-346). -/
def lazyHandleEntry (st : LazyState) (e : ObsEntry) : LazyState :=
  if e.isIntersecting then
    { st with
      loadedCount := fun x => if x = e.target then st.loadedCount x + 1 else st.loadedCount x
      observing := st.observing.erase e.target }
  else st

def lazyDeliver (st : LazyState) (e : ObsEntry) : LazyState :=
  if e.target ∈ st.observing then lazyHandleEntry st e else st

def lazyRun (st : LazyState) (entries : List ObsEntry) : LazyState :=
  entries.foldl lazyDeliver st

/-- Setup of lines 349-351 (`observe` is a no-op on an already-observed
target, hence `dedup`). -/
def lazyInit (elems : List ℕ) : LazyState :=
  { observing := elems.dedup, loadedCount := fun _ => 0 }

/-! ## Focus trap (main.js lines 402-428)

Focusable elements are identified by natural numbers; `0` is never used for
a real element and stands for `document.body`.  `focusables` is the list
computed ONCE at setup by the `querySelectorAll` of lines 403-405; the
handler closes over `firstFocusable`/`lastFocusable` taken from it and
never re-queries the menu, so it ignores the menu's current descendants. -/
structure TrapState where
  menuActive : Bool
  /-- `document.activeElement` -/
  activeElement : ℕ
  /-- whether `e.preventDefault()` was called by the trap handler -/
  defaultPrevented : Bool
  /-- the menu's focusable descendants NOW (possibly changed since setup);
  the handler never reads this field -/
  currentDescendants : List ℕ
deriving Repr, DecidableEq

/-- Menu keydown handler (lines 409-427).  `focusables` is the setup-time
list; `firstFocusable` / `lastFocusable` are its first and last entries
(`none` models `undefined` when the list is empty, which
`document.activeElement ===` never equals). -/
def trapKeydown (focusables : List ℕ) (key : String) (shiftKey : Bool)
    (st : TrapState) : TrapState :=
  let firstFocusable := focusables.head?
  let lastFocusable := focusables.getLast?
  if !st.menuActive then st
  else if key = "Tab" then
    if shiftKey then
      if some st.activeElement = firstFocusable then
        { st with defaultPrevented := true
                  activeElement := lastFocusable.getD st.activeElement }
      else st
    else
      if some st.activeElement = lastFocusable then
        { st with defaultPrevented := true
                  activeElement := firstFocusable.getD st.activeElement }
      else st
  else st

/-! ## Theorems for the specification claims -/

lemma navRun_consistent (st : NavState) (ops : List NavOp)
    (h : navConsistent st) : navConsistent (navRun st ops) := by
  induction ops generalizing st with
  | nil => exact h
  | cons op rest ih =>
      simp only [navRun, List.foldl] at *
      exact ih (navApply st op) (navApply_consistent st op h)

/-- Claim C1: for every sequence of menu operations (toggle click, outside
click, Escape keypress, link click) applied to an initially consistent menu
state, the toggle's `aria-expanded` attribute and the menu's `active` class
agree — the attribute is `"true"` iff the class is present — after every
handler completes (i.e. after every prefix of the sequence). -/
theorem nav_aria_class_agree (st : NavState) (ops : List NavOp)
    (h : navConsistent st) (k : ℕ) :
    navConsistent (navRun st (ops.take k)) :=
  navRun_consistent st (ops.take k) h

theorem nav_aria_class_agree_witness :
    navConsistent (navRun ⟨"false", false, "", false⟩
      ([NavOp.toggle, NavOp.escape, NavOp.toggle,
        NavOp.outside false false, NavOp.link].take 5)) :=
  nav_aria_class_agree ⟨"false", false, "", false⟩
    [NavOp.toggle, NavOp.escape, NavOp.toggle, NavOp.outside false false,
     NavOp.link] (by decide) 5

/-- Claim C10: the Escape close path guards only on the menu's existence and
`active` class, not on the toggle: in a document whose `.nav-menu` exists
and is active but whose `.nav-toggle` is absent, the Escape handler throws
(a `TypeError` from `navToggle.setAttribute`, after having removed the
class) instead of closing the menu harmlessly, whereas the click-based
close handlers are installed only when both elements exist. -/
theorem escape_null_toggle_throws (doc : NavDoc)
    (hmenu : doc.navMenu = some true) (htoggle : doc.navToggle = none) :
    escapeKeydownDoc doc "Escape" = Except.error { doc with navMenu := some false } ∧
    clickHandlersInstalled doc = false ∧
    (∀ d : NavDoc, clickHandlersInstalled d = true ↔
      (d.navToggle.isSome ∧ d.navMenu.isSome)) := by
  refine ⟨?_, ?_, ?_⟩
  · simp [escapeKeydownDoc, hmenu, htoggle]
  · simp [clickHandlersInstalled, htoggle]
  · intro d
    simp [clickHandlersInstalled]

theorem escape_null_toggle_throws_witness :
    escapeKeydownDoc ⟨none, some true, "", false⟩ "Escape"
        = Except.error ⟨none, some false, "", false⟩ ∧
    clickHandlersInstalled ⟨none, some true, "", false⟩ = false ∧
    (∀ d : NavDoc, clickHandlersInstalled d = true ↔
      (d.navToggle.isSome ∧ d.navMenu.isSome)) :=
  escape_null_toggle_throws ⟨none, some true, "", false⟩ rfl rfl

/-- Claim C2 counterexample: with no `.header` element the scroll handler
does NOT degrade gracefully — it throws (lines 145/148 dereference the null
`header`), already at scroll position 150 after 0; likewise a
`.product-card` without a `.product-name` descendant makes the card setup
loop throw at line 165. -/
theorem missing_element_throws_counterexample :
    handleScrollDoc false 0 150 = Except.error () ∧
    setupProductCards
      [{ productName := none, hasAddToCart := true, hasQuickView := true }]
      = Except.error () := by
  exact ⟨rfl, rfl⟩

/-- Claim C2 amended: the controllers attached under existence guards (the
navigation pair, the newsletter form, the per-card buttons) are silently
skipped when their element is absent, but a missing `.header` makes every
invocation of the scroll handler throw, and a card missing its
`.product-name` makes the card-setup loop throw before attaching anything
(aborting the remaining cards too). -/
theorem missing_element_handling_amended :
    (∀ y1 y2 : ℚ, handleScrollDoc false y1 y2 = Except.error ()) ∧
    (∀ a q : Bool,
      setupProductCard { productName := none, hasAddToCart := a, hasQuickView := q }
        = Except.error ()) ∧
    (∀ (a q : Bool) (rest : List ProductCard),
      setupProductCards
        ({ productName := none, hasAddToCart := a, hasQuickView := q } :: rest)
        = Except.error ()) ∧
    (∀ (nm : String) (a q : Bool),
      setupProductCard { productName := some nm, hasAddToCart := a, hasQuickView := q }
        = Except.ok { productName := nm, addToCartAttached := a,
                      quickViewAttached := q, keydownAttached := true }) ∧
    (∀ hasMenu : Bool, navSetupAttached false hasMenu = false) ∧
    (newsletterSetupAttached false = false) := by
  refine ⟨fun _ _ => rfl, fun _ _ => rfl, fun _ _ _ => rfl, fun _ _ _ => rfl,
    fun _ => rfl, rfl⟩

/-- The strictly increasing frame-timestamp sequence of the C3
counterexample: the second animation frame arrives 3000 ms after the first
(timestamps are allowed to be arbitrarily far apart). -/
def overshootFrames : ℕ → ℕ := fun n => 3000 * n

/-- Claim C3 counterexample: for the strictly increasing frame sequence
0, 3000, 6000, … the animation terminates (last write at elapsed 3000 ms),
but with `rectTop = 160` and `pageYOffset = 0` the last scroll offset
written is `ease(3000, 0, 100, 1000) = -700`, which is 800 units away from
the computed target `targetPosition - 60 = 100` — not within one unit. -/
theorem smoothScroll_accuracy_counterexample :
    StrictMono overshootFrames ∧
    lastElapsed overshootFrames 0 2 = some 3000 ∧
    frameWrite ⟨160, 0⟩ 3000 = -700 ∧
    ¬(|frameWrite ⟨160, 0⟩ 3000 - (targetPosition ⟨160, 0⟩ - 60)| ≤ 1) := by
  refine ⟨?_, ?_, ?_, ?_⟩
  · intro a b hab
    simp only [overshootFrames]
    omega
  · rfl
  · norm_num [frameWrite, easeQ, startPosition, scrollDistance, targetPosition,
      scrollDuration]
  · norm_num [frameWrite, easeQ, startPosition, scrollDistance, targetPosition,
      scrollDuration]

/-- Claim C3 amended: for every strictly increasing frame-timestamp
sequence the animation-frame recursion terminates, every terminating run's
final write happens at elapsed time `≥ 1000` ms (the fixed duration), and
whenever the final frame's elapsed time is exactly the 1000 ms duration the
last scroll offset written equals — hence is within one unit of — the
target's document offset minus the 60-unit header height.  (As stated the
claim is false: a final frame overshooting the duration writes
`ease(elapsed)` with `elapsed > 1000`, which can be arbitrarily far from
the target; see the counterexample.) -/
theorem smoothScroll_terminates_exact_at_duration
    (frames : ℕ → ℕ) (hm : StrictMono frames) (ctx : ScrollCtx) :
    (∃ fuel e, lastElapsed frames 0 fuel = some e) ∧
    (∀ fuel e, lastElapsed frames 0 fuel = some e → 1000 ≤ e) ∧
    frameWrite ctx 1000 = targetPosition ctx - 60 ∧
    |frameWrite ctx 1000 - (targetPosition ctx - 60)| ≤ 1 := by
  have hexact : frameWrite ctx 1000 = targetPosition ctx - 60 := by
    norm_num [frameWrite, easeQ, startPosition, scrollDistance, scrollDuration]
    ring
  refine ⟨?_, ?_, hexact, ?_⟩
  · have h1000 : 1000 ≤ frames (0 + 1000) - frames 0 := by
      have := strictMono_ge_add frames hm 1000
      rw [Nat.zero_add]
      omega
    obtain ⟨e, he⟩ := lastElapsed_some_of_ge frames 1000 0 h1000
    exact ⟨1001, e, he⟩
  · intro fuel e he
    exact lastElapsed_ge frames fuel 0 e he
  · rw [hexact]
    norm_num

theorem smoothScroll_terminates_exact_at_duration_witness :
    (∃ fuel e, lastElapsed (fun n => 500 * n) 0 fuel = some e) ∧
    (∀ fuel e, lastElapsed (fun n => 500 * n) 0 fuel = some e → 1000 ≤ e) ∧
    frameWrite ⟨160, 0⟩ 1000 = targetPosition ⟨160, 0⟩ - 60 ∧
    |frameWrite ⟨160, 0⟩ 1000 - (targetPosition ⟨160, 0⟩ - 60)| ≤ 1 :=
  smoothScroll_terminates_exact_at_duration (fun n => 500 * n)
    (by intro a b hab; simp only []; omega) ⟨160, 0⟩

/-- Claim C4 counterexample: with `requestAnimationFrame` unavailable, a
click on an in-page anchor (href `"#top"`, target present) does NOT fall
back to a native jump — `preventDefault` has already run when the missing
`requestAnimationFrame` is called on line 57, so the handler throws with
the native navigation suppressed; and with `IntersectionObserver`
unavailable the reveal setup of line 290 throws (it has no feature check),
so the setup code does not merely skip the feature. -/
theorem capability_missing_counterexample :
    anchorClick "#top" true false
      = { outcome := AnchorOutcome.thrown, defaultPrevented := true } ∧
    revealSetupRuns false = Except.error () := by
  exact ⟨by decide, rfl⟩

/-- Claim C4 amended: only the lazy-background feature is guarded by
feature detection (line 337) and is skipped without throwing when
`IntersectionObserver` is missing; the reveal observer is constructed
unguarded and its setup throws in that environment, and an anchor click on
a real in-page target with `requestAnimationFrame` missing throws after
the default navigation has been prevented — there is no native-jump
fallback. -/
theorem capability_degradation_amended (href : String)
    (h : ¬(href = "#" ∨ href = "#cart")) :
    lazySetupRuns false = false ∧
    revealSetupRuns false = Except.error () ∧
    anchorClick href true false
      = { outcome := AnchorOutcome.thrown, defaultPrevented := true } ∧
    (anchorClick href true false).outcome ≠ AnchorOutcome.nativeBehaviour := by
  refine ⟨rfl, rfl, ?_, ?_⟩ <;> simp [anchorClick, h]

theorem capability_degradation_amended_witness :
    lazySetupRuns false = false ∧
    revealSetupRuns false = Except.error () ∧
    anchorClick "#products" true false
      = { outcome := AnchorOutcome.thrown, defaultPrevented := true } ∧
    (anchorClick "#products" true false).outcome ≠ AnchorOutcome.nativeBehaviour :=
  capability_degradation_amended "#products" (by decide)

/-- Claim C5: submitting the newsletter form with input `"not-an-email"` or
with an empty input announces the error message, focuses the email field,
and leaves the input's value unchanged; submitting with
`"user@example.com"` announces success, clears the input, sets the button
label to `"Subscribed!"`, schedules the 3000 ms revert with the saved
original label, and firing that revert restores the original label. -/
theorem newsletter_submit_behaviour (st : FormState) :
    ((newsletterSubmit { st with inputValue := "not-an-email" }).announcements
        = st.announcements ++ ["Please enter a valid email address"] ∧
     (newsletterSubmit { st with inputValue := "not-an-email" }).inputFocused = true ∧
     (newsletterSubmit { st with inputValue := "not-an-email" }).inputValue
        = "not-an-email") ∧
    ((newsletterSubmit { st with inputValue := "" }).announcements
        = st.announcements ++ ["Please enter a valid email address"] ∧
     (newsletterSubmit { st with inputValue := "" }).inputFocused = true ∧
     (newsletterSubmit { st with inputValue := "" }).inputValue = "") ∧
    ((newsletterSubmit { st with inputValue := "user@example.com" }).announcements
        = st.announcements ++ ["Successfully subscribed to newsletter"] ∧
     (newsletterSubmit { st with inputValue := "user@example.com" }).inputValue = "" ∧
     (newsletterSubmit { st with inputValue := "user@example.com" }).btnText
        = "Subscribed!" ∧
     (newsletterSubmit { st with inputValue := "user@example.com" }).pendingRevert
        = some (3000, st.btnText) ∧
     (fireFormRevert
        (newsletterSubmit { st with inputValue := "user@example.com" })).btnText
        = st.btnText) := by
  have hbad : isValidEmail "not-an-email" = false := by decide
  have hgood : isValidEmail "user@example.com" = true := by decide
  refine ⟨⟨?_, ?_, ?_⟩, ⟨?_, ?_, ?_⟩, ⟨?_, ?_, ?_, ?_, ?_⟩⟩ <;>
    simp [newsletterSubmit, fireFormRevert, hbad, hgood]

/-- Claim C6: the easing function is a quadratic ease-in-out curve:
`ease(0,b,c,d) = b`, `ease(d,b,c,d) = b + c`, and it is symmetric about the
midpoint: for every `b`, `c`, every `d > 0` and every `x` with
`0 ≤ x ≤ d/2`, `ease(d/2 − x) + ease(d/2 + x) = 2b + c`. -/
theorem ease_quadratic_ease_in_out (b c d x : ℚ) (hd : 0 < d)
    (hx0 : 0 ≤ x) (hxd : x ≤ d / 2) :
    easeQ 0 b c d = b ∧
    easeQ d b c d = b + c ∧
    easeQ (d / 2 - x) b c d + easeQ (d / 2 + x) b c d = 2 * b + c := by
  have hne : d ≠ 0 := ne_of_gt hd
  have hd2 : (0 : ℚ) < d / 2 := by positivity
  refine ⟨?_, ?_, ?_⟩
  · rw [easeQ_first_half b c d 0 hd (le_of_lt hd2)]
    simp
  · rw [easeQ_second_half b c d d hd (by linarith)]
    have h2 : d / (d / 2) = 2 := by
      field_simp
    rw [h2]
    ring
  · rw [easeQ_first_half b c d (d / 2 - x) hd (by linarith),
        easeQ_second_half b c d (d / 2 + x) hd (by linarith)]
    field_simp
    ring

theorem ease_quadratic_ease_in_out_witness :
    easeQ 0 1 7 4 = 1 ∧
    easeQ 4 1 7 4 = 1 + 7 ∧
    easeQ (4 / 2 - 1) 1 7 4 + easeQ (4 / 2 + 1) 1 7 4 = 2 * 1 + 7 :=
  ease_quadratic_ease_in_out 1 7 4 1 (by norm_num) (by norm_num) (by norm_num)

lemma addToCartClick_cartCount (nm : String) (st : CartState) :
    (addToCartClick nm st).state.cartCount = st.cartCount + 1 := by
  simp only [addToCartClick, updateCartCount]
  by_cases h : st.hasCartLink <;> simp [h]

lemma addToCartClicks_cartCount (names : List String) :
    ∀ st : CartState,
      (addToCartClicks names st).cartCount = st.cartCount + names.length := by
  induction names with
  | nil => intro st; simp [addToCartClicks]
  | cons nm rest ih =>
      intro st
      simp only [addToCartClicks, List.foldl] at ih ⊢
      rw [ih, addToCartClick_cartCount]
      simp only [List.length_cons]
      omega

/-- Claim C7: each add-to-cart click increments the shared counter by
exactly one and (when the cart link exists) rewrites the cart-link label to
show the new count; any sequence of `n` clicks across any products takes
the counter from `k` to `k + n` (so from the initial `0` to `n`);
propagation is stopped on every click, and firing the 2000 ms "Added!"
revert restores the saved button text without changing the counter. -/
theorem add_to_cart_counts_clicks (names : List String) (nm : String)
    (st : CartState) (hlink : st.hasCartLink = true) :
    (addToCartClicks names st).cartCount = st.cartCount + names.length ∧
    (addToCartClick nm st).state.cartCount = st.cartCount + 1 ∧
    (addToCartClick nm st).propagationStopped = true ∧
    (addToCartClick nm st).state.cartLinkText
      = s!"Cart ({st.cartCount + 1})" ∧
    (addToCartClick nm st).state.pendingReverts
      = st.pendingReverts ++ [(2000, st.btnText)] ∧
    (fireCartRevert st.btnText (addToCartClick nm st).state).btnText
      = st.btnText ∧
    (fireCartRevert st.btnText (addToCartClick nm st).state).cartCount
      = (addToCartClick nm st).state.cartCount := by
  refine ⟨addToCartClicks_cartCount names st, addToCartClick_cartCount nm st,
    rfl, ?_, ?_, rfl, rfl⟩
  · simp [addToCartClick, updateCartCount, hlink]
  · simp [addToCartClick, updateCartCount, hlink]

theorem add_to_cart_counts_clicks_witness :
    (addToCartClicks ["Classic Bodysuit", "Lace Bodysuit"]
        ⟨0, true, "Cart (0)", "Add to Cart", "", [], []⟩).cartCount = 0 + 2 ∧
    (addToCartClick "Classic Bodysuit"
        ⟨0, true, "Cart (0)", "Add to Cart", "", [], []⟩).state.cartCount = 0 + 1 ∧
    (addToCartClick "Classic Bodysuit"
        ⟨0, true, "Cart (0)", "Add to Cart", "", [], []⟩).propagationStopped = true ∧
    (addToCartClick "Classic Bodysuit"
        ⟨0, true, "Cart (0)", "Add to Cart", "", [], []⟩).state.cartLinkText
      = s!"Cart ({0 + 1})" ∧
    (addToCartClick "Classic Bodysuit"
        ⟨0, true, "Cart (0)", "Add to Cart", "", [], []⟩).state.pendingReverts
      = [] ++ [(2000, "Add to Cart")] ∧
    (fireCartRevert "Add to Cart"
        (addToCartClick "Classic Bodysuit"
          ⟨0, true, "Cart (0)", "Add to Cart", "", [], []⟩).state).btnText
      = "Add to Cart" ∧
    (fireCartRevert "Add to Cart"
        (addToCartClick "Classic Bodysuit"
          ⟨0, true, "Cart (0)", "Add to Cart", "", [], []⟩).state).cartCount
      = (addToCartClick "Classic Bodysuit"
          ⟨0, true, "Cart (0)", "Add to Cart", "", [], []⟩).state.cartCount :=
  add_to_cart_counts_clicks ["Classic Bodysuit", "Lace Bodysuit"]
    "Classic Bodysuit" ⟨0, true, "Cart (0)", "Add to Cart", "", [], []⟩ rfl
lemma revealDeliver_invariant (st : RevealState) (e : ObsEntry) (x : ℕ)
    (hn : st.observing.Nodup)
    (h : st.applyCount x ≤ 1 ∧ (x ∈ st.observing → st.applyCount x = 0)) :
    (revealDeliver st e).observing.Nodup ∧
    (revealDeliver st e).applyCount x ≤ 1 ∧
    (x ∈ (revealDeliver st e).observing → (revealDeliver st e).applyCount x = 0) := by
  unfold revealDeliver revealHandleEntry
  by_cases hin : e.target ∈ st.observing
  · rw [if_pos hin]
    by_cases hi : e.isIntersecting = true
    · rw [if_pos hi]
      refine ⟨hn.erase e.target, ?_, ?_⟩
      · show (if x = e.target then st.applyCount x + 1 else st.applyCount x) ≤ 1
        by_cases hx : x = e.target
        · have h0 : st.applyCount x = 0 := h.2 (hx ▸ hin)
          rw [if_pos hx, h0]
        · rw [if_neg hx]
          exact h.1
      · intro hmem
        show (if x = e.target then st.applyCount x + 1 else st.applyCount x) = 0
        have hne : x ≠ e.target := (hn.mem_erase_iff.mp hmem).1
        rw [if_neg hne]
        exact h.2 (List.mem_of_mem_erase hmem)
    · rw [if_neg hi]
      exact ⟨hn, h.1, h.2⟩
  · rw [if_neg hin]
    exact ⟨hn, h.1, h.2⟩

lemma revealRun_invariant (entries : List ObsEntry) :
    ∀ (st : RevealState) (x : ℕ), st.observing.Nodup →
      (st.applyCount x ≤ 1 ∧ (x ∈ st.observing → st.applyCount x = 0)) →
      (revealRun st entries).applyCount x ≤ 1 := by
  induction entries with
  | nil => intro st x _ h; exact h.1
  | cons e rest ih =>
      intro st x hn h
      simp only [revealRun, List.foldl]
      obtain ⟨hn', h1, h2⟩ := revealDeliver_invariant st e x hn h
      exact ih (revealDeliver st e) x hn' ⟨h1, h2⟩

lemma lazyDeliver_invariant (st : LazyState) (e : ObsEntry) (x : ℕ)
    (hn : st.observing.Nodup)
    (h : st.loadedCount x ≤ 1 ∧ (x ∈ st.observing → st.loadedCount x = 0)) :
    (lazyDeliver st e).observing.Nodup ∧
    (lazyDeliver st e).loadedCount x ≤ 1 ∧
    (x ∈ (lazyDeliver st e).observing → (lazyDeliver st e).loadedCount x = 0) := by
  unfold lazyDeliver lazyHandleEntry
  by_cases hin : e.target ∈ st.observing
  · rw [if_pos hin]
    by_cases hi : e.isIntersecting = true
    · rw [if_pos hi]
      refine ⟨hn.erase e.target, ?_, ?_⟩
      · show (if x = e.target then st.loadedCount x + 1 else st.loadedCount x) ≤ 1
        by_cases hx : x = e.target
        · have h0 : st.loadedCount x = 0 := h.2 (hx ▸ hin)
          rw [if_pos hx, h0]
        · rw [if_neg hx]
          exact h.1
      · intro hmem
        show (if x = e.target then st.loadedCount x + 1 else st.loadedCount x) = 0
        have hne : x ≠ e.target := (hn.mem_erase_iff.mp hmem).1
        rw [if_neg hne]
        exact h.2 (List.mem_of_mem_erase hmem)
    · rw [if_neg hi]
      exact ⟨hn, h.1, h.2⟩
  · rw [if_neg hin]
    exact ⟨hn, h.1, h.2⟩

lemma lazyRun_invariant (entries : List ObsEntry) :
    ∀ (st : LazyState) (x : ℕ), st.observing.Nodup →
      (st.loadedCount x ≤ 1 ∧ (x ∈ st.observing → st.loadedCount x = 0)) →
      (lazyRun st entries).loadedCount x ≤ 1 := by
  induction entries with
  | nil => intro st x _ h; exact h.1
  | cons e rest ih =>
      intro st x hn h
      simp only [lazyRun, List.foldl]
      obtain ⟨hn', h1, h2⟩ := lazyDeliver_invariant st e x hn h
      exact ih (lazyDeliver st e) x hn' ⟨h1, h2⟩

/-- Claim C8: for every set of registered elements and every sequence of
delivered intersection entries — including an element re-entering the
viewport any number of times — the visible styling of the scroll-reveal
callback is applied to each element at most once (the callback unobserves
the target on its first intersecting entry), and likewise the
lazy-background `loaded` marking is applied at most once per element. -/
theorem observer_one_shot (elems : List ℕ) (entries : List ObsEntry) (x : ℕ) :
    (revealRun (revealInit elems) entries).applyCount x ≤ 1 ∧
    (lazyRun (lazyInit elems) entries).loadedCount x ≤ 1 := by
  constructor
  · exact revealRun_invariant entries (revealInit elems) x
      (List.nodup_dedup elems) ⟨Nat.zero_le 1, fun _ => rfl⟩
  · exact lazyRun_invariant entries (lazyInit elems) x
      (List.nodup_dedup elems) ⟨Nat.zero_le 1, fun _ => rfl⟩

/-- Claim C9: while the menu is open, pressing Tab with focus on the LAST
focusable element computed at setup moves focus to the FIRST one (with the
default prevented), and Shift+Tab from the first moves focus to the last;
moreover the handler's behaviour depends only on the setup-time focusable
list — changing the menu's current descendants never changes what it does
(the first/last elements are not recomputed). -/
theorem focus_trap_cycles (focusables : List ℕ) (f l : ℕ) (st : TrapState)
    (hf : focusables.head? = some f) (hl : focusables.getLast? = some l)
    (ha : st.menuActive = true) :
    ((trapKeydown focusables "Tab" false { st with activeElement := l }).activeElement
        = f ∧
     (trapKeydown focusables "Tab" false { st with activeElement := l }).defaultPrevented
        = true) ∧
    ((trapKeydown focusables "Tab" true { st with activeElement := f }).activeElement
        = l ∧
     (trapKeydown focusables "Tab" true { st with activeElement := f }).defaultPrevented
        = true) ∧
    (∀ (cur : List ℕ) (key : String) (sh : Bool),
      trapKeydown focusables key sh { st with currentDescendants := cur }
        = { trapKeydown focusables key sh st with currentDescendants := cur }) := by
  refine ⟨?_, ?_, ?_⟩
  · constructor <;> simp [trapKeydown, ha, hf, hl]
  · constructor <;> simp [trapKeydown, ha, hf, hl]
  · intro cur key sh
    obtain ⟨m, a, p, cd⟩ := st
    simp only [trapKeydown]
    split_ifs <;> rfl

theorem focus_trap_cycles_witness :
    (trapKeydown [3, 4, 5] "Tab" false ⟨true, 5, false, [3, 4, 5]⟩).activeElement
        = 3 ∧
    (trapKeydown [3, 4, 5] "Tab" true ⟨true, 3, false, [3, 4, 5]⟩).activeElement
        = 5 :=
  ⟨(focus_trap_cycles [3, 4, 5] 3 5 ⟨true, 0, false, [3, 4, 5]⟩ rfl rfl rfl).1.1,
   (focus_trap_cycles [3, 4, 5] 3 5 ⟨true, 0, false, [3, 4, 5]⟩ rfl rfl rfl).2.1.1⟩
